import Mathlib

/-!
Verification of the inventory-management HTTP service in `src/main.js`.

The service keeps inventory items in a relational table (`id`, `name`,
`description`, nullable `photo`) and photo bytes as files in a cache
directory.  We embed the observable behaviour of each route handler as a
pure function over an explicit server state:

* `ServerState.items` models the `inventory` table (a list of rows);
* `ServerState.files` models the cache directory, an association list
  from filename to raw bytes.

External nondeterminism is made explicit: `randomUUID` and multer's
generated filenames become parameters (with freshness hypotheses where a
claim needs them), and the asynchronous `fs.unlink` outcome during item
deletion becomes a boolean parameter.
-/

/-- A row of the `inventory` table: `id`, `name`, `description`,
nullable `photo` filename. -/
structure Item where
  id : String
  name : String
  description : String
  photo : Option String
deriving Repr, DecidableEq

/-- The observable server state: the `inventory` table together with the
photo cache directory (filename ↦ bytes). -/
structure ServerState where
  items : List Item
  files : List (String × List Nat)
deriving Repr, DecidableEq

/-- Bodies of the HTTP responses the handlers in `main.js` produce. -/
inductive RespBody where
  | jsonItem (it : Item)
  | jsonItems (its : List Item)
  | jsonMsg (message : String)
  | jsonMsgId (message : String) (id : String)
  | jsonMsgItem (message : String) (it : Item)
  | jsonError (error : String)
  | text (s : String)
  | bytes (contentType : String) (b : List Nat)
deriving Repr, DecidableEq

/-- JavaScript falsiness of an optional string field: `!x` is true when
the field is `undefined` or the empty string. -/
def falsyStr : Option String → Bool
  | none => true
  | some s => s = ""

/-- A value arriving in a parsed request body: urlencoded bodies give
strings, JSON bodies may give booleans. -/
inductive FormVal where
  | str (s : String)
  | boolean (b : Bool)
deriving Repr, DecidableEq

/-- JavaScript truthiness of an optional body value: a non-empty string
or the boolean `true`. -/
def jsTruthy : Option FormVal → Bool
  | none => false
  | some (FormVal.str s) => s ≠ ""
  | some (FormVal.boolean b) => b

/-- The exact test `includePhoto === 'true' || includePhoto === true`
from the `/search` handler (main.js line 446). -/
def includePhotoSet (v : Option FormVal) : Bool :=
  v = some (FormVal.str "true") || v = some (FormVal.boolean true)

/-- `POST /register` (main.js lines 90–111).  Multer stores an uploaded
file in the cache directory before the handler runs; the handler rejects
a missing/empty `inventory_name` with 400, and otherwise inserts a row
with a fresh `randomUUID` id (the id is a parameter here; a duplicate id
would violate the primary key and surface as 500). -/
def register (st : ServerState) (inventory_name description : Option String)
    (file : Option (String × List Nat)) (freshId : String) :
    (Nat × RespBody) × ServerState :=
  let st1 : ServerState :=
    match file with
    | some (fn, b) => { st with files := (fn, b) :: st.files }
    | none => st
  if falsyStr inventory_name then
    ((400, RespBody.jsonError "(400) inventory_name is required"), st1)
  else if st1.items.any (fun it => it.id = freshId) then
    ((500, RespBody.jsonError "Internal Server Error"), st1)
  else
    let item : Item :=
      { id := freshId
        name := inventory_name.getD ""
        description := description.getD ""
        photo := (file.map Prod.fst) }
    ((201, RespBody.jsonMsgId "Created" freshId),
      { st1 with items := st1.items ++ [item] })

/-- `GET /inventory` (main.js lines 125–133): returns every row. -/
def getInventory (st : ServerState) : Nat × RespBody :=
  (200, RespBody.jsonItems st.items)

/-- `GET /inventory/:id` (main.js lines 154–168): the first row matching
the id, or 404. -/
def getItem (st : ServerState) (id : String) : Nat × RespBody :=
  match st.items.find? (fun it => it.id = id) with
  | none => (404, RespBody.jsonError "Not found")
  | some it => (200, RespBody.jsonItem it)

/-- JavaScript truthiness of an optional field used by the PUT handler:
`if (name)` collects the field only when it is a non-empty string. -/
def effective : Option String → Bool
  | none => false
  | some s => s ≠ ""

/-- The row transformation performed by the conditional
`UPDATE inventory SET ... WHERE id = ?` of the PUT handler: a row whose
id matches receives each effective field, every other row is untouched. -/
def applyUpdate (name description : Option String) (id : String) (it : Item) : Item :=
  if it.id = id then
    { it with
      name := if effective name then name.getD "" else it.name
      description := if effective description then description.getD "" else it.description }
  else it

/-- `PUT /inventory/:id` (main.js lines 200–240).  With no effective
field it answers `"No changes requested"` with the current row (404 when
absent); otherwise it updates the effective fields of the matching row,
answering 404 when no row exists and `"Updated"` with the re-selected row
otherwise. -/
def putItem (st : ServerState) (id : String) (name description : Option String) :
    (Nat × RespBody) × ServerState :=
  if effective name || effective description then
    let items := st.items.map (applyUpdate name description id)
    let st' : ServerState := { st with items := items }
    match items.find? (fun it => it.id = id) with
    | none => ((404, RespBody.jsonError "Not found"), st')
    | some it => ((200, RespBody.jsonMsgItem "Updated" it), st')
  else
    match st.items.find? (fun it => it.id = id) with
    | none => ((404, RespBody.jsonError "Not found"), st)
    | some it => ((200, RespBody.jsonMsgItem "No changes requested" it), st)

/-- `GET /inventory/:id/photo` (main.js lines 266–289): 404 when the row
is absent or its photo is null (`"Photo not found"`), 404 when the
referenced file is missing on disk (`"Photo file missing"`), otherwise
the file bytes declared as `image/jpeg`. -/
def getPhoto (st : ServerState) (id : String) : Nat × RespBody :=
  match st.items.find? (fun it => it.id = id) with
  | none => (404, RespBody.jsonError "Photo not found")
  | some it =>
    match it.photo with
    | none => (404, RespBody.jsonError "Photo not found")
    | some fn =>
      match st.files.lookup fn with
      | none => (404, RespBody.jsonError "Photo file missing")
      | some b => (200, RespBody.bytes "image/jpeg" b)

/-- `PUT /inventory/:id/photo` (main.js lines 321–343).  Multer stores
the upload first; a missing file yields 400, a missing row 404, and
otherwise the row's photo is overwritten with the new filename. -/
def putPhoto (st : ServerState) (id : String) (file : Option (String × List Nat)) :
    (Nat × RespBody) × ServerState :=
  match file with
  | none => ((400, RespBody.jsonError "Photo file is required"), st)
  | some (fn, b) =>
    let st1 : ServerState := { st with files := (fn, b) :: st.files }
    match st1.items.find? (fun it => it.id = id) with
    | none => ((404, RespBody.jsonError "Not found"), st1)
    | some _ =>
      let items := st1.items.map
        (fun it => if it.id = id then { it with photo := some fn } else it)
      ((200, RespBody.jsonMsg "Photo updated"), { st1 with items := items })

/-- `DELETE /inventory/:id` (main.js lines 364–396).  It selects the
row's photo, deletes the row (404 when absent), then best-effort unlinks
the photo file when present on disk; `unlinkOk` models the outcome of
the asynchronous `fs.unlink`, whose failure is logged and swallowed. -/
def deleteItem (st : ServerState) (id : String) (unlinkOk : Bool) :
    (Nat × RespBody) × ServerState :=
  match st.items.find? (fun it => it.id = id) with
  | none => ((404, RespBody.jsonError "Not found"), st)
  | some it =>
    let st1 : ServerState := { st with items := st.items.filter (fun x => x.id ≠ id) }
    let st2 : ServerState :=
      match it.photo with
      | some fn =>
        if (st1.files.lookup fn).isSome && unlinkOk then
          { st1 with files := st1.files.filter (fun p => p.1 ≠ fn) }
        else st1
      | none => st1
    ((200, RespBody.jsonMsg "Deleted"), st2)

/-- `POST /search` (main.js lines 424–456): 400 on a falsy id, 404 plain
text `"Not Found"` when no row matches, otherwise plain text with the
name and description, plus a photo-reference line exactly when
`includePhoto === 'true' || includePhoto === true`. -/
def search (st : ServerState) (id : Option String) (includePhoto : Option FormVal) :
    Nat × RespBody :=
  if falsyStr id then
    (400, RespBody.text "ID parameter is required")
  else
    let idv := id.getD ""
    match st.items.find? (fun it => it.id = idv) with
    | none => (404, RespBody.text "Not Found")
    | some it =>
      let base := "Name: " ++ it.name ++ "\nDescription: " ++ it.description
      let result :=
        if includePhotoSet includePhoto then
          base ++ "\nPhoto: /inventory/" ++ idv ++ "/photo"
        else base
      (200, RespBody.text result)

/-- Split a character sequence at every newline. -/
def splitLines : List Char → List (List Char)
  | [] => [[]]
  | c :: cs =>
    if c = '\n' then [] :: splitLines cs
    else
      match splitLines cs with
      | [] => [[c]]
      | l :: ls => (c :: l) :: ls

/-- A plain-text body contains the given full line. -/
def hasLine (text line : String) : Bool :=
  (splitLines text.data).contains line.data

/-! ### Helper lemmas about list lookup of rows -/

theorem find?_map_pres {α : Type} {f : α → α} {p : α → Bool}
    (hf : ∀ x, p (f x) = p x) (l : List α) :
    (l.map f).find? p = (l.find? p).map f := by
  induction l with
  | nil => rfl
  | cons a t ih =>
    cases h : p a with
    | true =>
      rw [List.map_cons, List.find?_cons_of_pos _ ((hf a).trans h),
        List.find?_cons_of_pos _ h]
      rfl
    | false =>
      rw [List.map_cons, List.find?_cons_of_neg _ (by rw [hf a, h]; exact Bool.false_ne_true),
        List.find?_cons_of_neg _ (by rw [h]; exact Bool.false_ne_true), ih]

theorem find?_filter_none {α : Type} {p q : α → Bool}
    (h : ∀ x, p x = true → q x = false) (l : List α) :
    (l.filter q).find? p = none := by
  rw [List.find?_eq_none]
  intro x hx hpx
  rcases List.mem_filter.mp hx with ⟨_, hqx⟩
  rw [h x hpx] at hqx
  exact Bool.false_ne_true hqx

/-! ### C1: valid registration, fresh id, faithful read-back -/

/-- C1: a valid registration (non-empty `inventory_name`) with no photo
file answers 201 with the fresh id; a subsequent `GET /inventory/{id}`
answers 200 with exactly the submitted name, the submitted description
(empty string when omitted) and a null photo; and distinctness of the
stored ids is preserved, the fresh id being new (`randomUUID` is
modelled as a fresh-id parameter). -/
theorem register_then_get_c1 (st : ServerState) (name? desc? : Option String)
    (freshId : String)
    (hname : falsyStr name? = false)
    (hfresh : ∀ it ∈ st.items, it.id ≠ freshId)
    (hnodup : (st.items.map Item.id).Nodup) :
    (register st name? desc? none freshId).1
        = (201, RespBody.jsonMsgId "Created" freshId)
    ∧ getItem (register st name? desc? none freshId).2 freshId
        = (200, RespBody.jsonItem
            { id := freshId, name := name?.getD "", description := desc?.getD "",
              photo := none })
    ∧ ((register st name? desc? none freshId).2.items.map Item.id).Nodup := by
  have hany : (st.items.any fun it => it.id = freshId) = false := by
    rw [List.any_eq_false]
    intro x hx
    simp [hfresh x hx]
  have hfind : (st.items.find? fun it => it.id = freshId) = none := by
    rw [List.find?_eq_none]
    intro x hx
    simp [hfresh x hx]
  refine ⟨?_, ?_, ?_⟩
  · simp [register, hname, hany]
  · simp [register, hname, hany, getItem, List.find?_append, hfind]
  · simp only [register, hname, hany, Bool.false_eq_true, if_false, if_neg]
    simp only [List.map_append, List.map_cons, List.map_nil]
    rw [List.nodup_append]
    refine ⟨hnodup, List.nodup_singleton _, ?_⟩
    intro a ha hb
    rcases List.mem_map.mp ha with ⟨it, hit, rfl⟩
    rcases List.mem_singleton.mp hb with h
    exact hfresh it hit h

/-- C1 witness: registering `Drill`/`18V` into the empty store. -/
theorem register_then_get_c1_witness :
    (register ⟨[], []⟩ (some "Drill") (some "18V") none "id1").1
        = (201, RespBody.jsonMsgId "Created" "id1")
    ∧ getItem (register ⟨[], []⟩ (some "Drill") (some "18V") none "id1").2 "id1"
        = (200, RespBody.jsonItem
            { id := "id1", name := "Drill", description := "18V", photo := none })
    ∧ ((register ⟨[], []⟩ (some "Drill") (some "18V") none "id1").2.items.map Item.id).Nodup :=
  register_then_get_c1 ⟨[], []⟩ (some "Drill") (some "18V") "id1"
    (by decide) (by intro it h; exact absurd h (List.not_mem_nil it)) List.nodup_nil

/-! ### C2: registration without a name is rejected and adds nothing -/

/-- C2: `POST /register` with an absent or empty `inventory_name`
answers 400 and leaves the item table unchanged, so `GET /inventory`
yields the same listing afterwards. -/
theorem register_invalid_c2 (st : ServerState) (name? desc? : Option String)
    (file : Option (String × List Nat)) (freshId : String)
    (hname : falsyStr name? = true) :
    (register st name? desc? file freshId).1
        = (400, RespBody.jsonError "(400) inventory_name is required")
    ∧ (register st name? desc? file freshId).2.items = st.items
    ∧ getInventory (register st name? desc? file freshId).2 = getInventory st := by
  cases file with
  | none =>
    exact ⟨by simp [register, hname], by simp [register, hname],
      by simp [register, hname, getInventory]⟩
  | some f =>
    rcases f with ⟨fn, b⟩
    exact ⟨by simp [register, hname], by simp [register, hname],
      by simp [register, hname, getInventory]⟩

/-- C2 witness: an empty name against a one-item store. -/
theorem register_invalid_c2_witness :
    (register ⟨[⟨"a", "N", "D", none⟩], []⟩ (some "") (some "x") none "id2").1
        = (400, RespBody.jsonError "(400) inventory_name is required")
    ∧ (register ⟨[⟨"a", "N", "D", none⟩], []⟩ (some "") (some "x") none "id2").2.items
        = [⟨"a", "N", "D", none⟩]
    ∧ getInventory (register ⟨[⟨"a", "N", "D", none⟩], []⟩ (some "") (some "x") none "id2").2
        = getInventory ⟨[⟨"a", "N", "D", none⟩], []⟩ :=
  register_invalid_c2 ⟨[⟨"a", "N", "D", none⟩], []⟩ (some "") (some "x") none "id2" (by decide)

/-! ### C3: partial update touches only effective fields -/

/-- C3: `PUT /inventory/{id}` transforms the table row-wise by
`applyUpdate`, which never changes `id` or `photo`, leaves `name`
(resp. `description`) unchanged whenever that field is absent or empty
(empty strings count as absent, so a field cannot be cleared), and
leaves every row with a different id untouched. -/
theorem putItem_frame_c3 (st : ServerState) (id : String)
    (name? desc? : Option String) (it : Item) :
    (putItem st id name? desc?).2.items = st.items.map (applyUpdate name? desc? id)
    ∧ (applyUpdate name? desc? id it).id = it.id
    ∧ (applyUpdate name? desc? id it).photo = it.photo
    ∧ (effective name? = false → (applyUpdate name? desc? id it).name = it.name)
    ∧ (effective desc? = false → (applyUpdate name? desc? id it).description = it.description)
    ∧ effective (some "") = false
    ∧ (it.id ≠ id → applyUpdate name? desc? id it = it) := by
  refine ⟨?_, ?_, ?_, ?_, ?_, by decide, ?_⟩
  · by_cases h : (effective name? || effective desc?) = true
    · cases hf : (st.items.map (applyUpdate name? desc? id)).find? (fun x => x.id = id) <;>
        simp [putItem, h, hf]
    · have h1 : effective name? = false := by
        cases he : effective name? with
        | false => rfl
        | true => exact absurd (by rw [he]; rfl) h
      have h2 : effective desc? = false := by
        cases hd : effective desc? with
        | false => rfl
        | true => exact absurd (by rw [hd, Bool.or_true]) h
      have hid : ∀ x, applyUpdate name? desc? id x = x := by
        intro x
        unfold applyUpdate
        rw [h1, h2]
        split <;> rfl
      have hmap : st.items.map (applyUpdate name? desc? id) = st.items := by
        induction st.items with
        | nil => rfl
        | cons a t iht => simp [hid a, iht]
      cases hf : st.items.find? (fun x => x.id = id) <;>
        simp [putItem, h1, h2, hf, hmap]
  · unfold applyUpdate; split <;> rfl
  · unfold applyUpdate; split <;> rfl
  · intro h; unfold applyUpdate; rw [h]; split <;> rfl
  · intro h; unfold applyUpdate; rw [h]; split <;> rfl
  · intro h; unfold applyUpdate; rw [if_neg h]

/-- C3 witness: updating only the description of the single stored row. -/
theorem putItem_frame_c3_witness :
    (putItem ⟨[⟨"a", "N", "D", none⟩], []⟩ "a" none (some "E")).2.items
        = [⟨"a", "N", "D", none⟩].map (applyUpdate none (some "E") "a")
    ∧ (applyUpdate none (some "E") "a" ⟨"a", "N", "D", none⟩).id = "a"
    ∧ (applyUpdate none (some "E") "a" ⟨"a", "N", "D", none⟩).photo = none
    ∧ (effective none = false →
        (applyUpdate none (some "E") "a" ⟨"a", "N", "D", none⟩).name = "N")
    ∧ (effective (some "E") = false →
        (applyUpdate none (some "E") "a" ⟨"a", "N", "D", none⟩).description = "D")
    ∧ effective (some "") = false
    ∧ ("a" ≠ "a" → applyUpdate none (some "E") "a" ⟨"a", "N", "D", none⟩
        = ⟨"a", "N", "D", none⟩) :=
  putItem_frame_c3 ⟨[⟨"a", "N", "D", none⟩], []⟩ "a" none (some "E") ⟨"a", "N", "D", none⟩

/-! ### C4: update with no effective fields -/

/-- C4: a `PUT /inventory/{id}` whose `name` and `description` are both
absent or empty answers 200 with the distinct `"No changes requested"`
message and the current row, leaving the state untouched, and answers
404 when the id does not exist. -/
theorem putItem_nochanges_c4 (st : ServerState) (id : String)
    (name? desc? : Option String)
    (h1 : effective name? = false) (h2 : effective desc? = false) :
    (∀ it, st.items.find? (fun x => x.id = id) = some it →
        putItem st id name? desc?
          = ((200, RespBody.jsonMsgItem "No changes requested" it), st))
    ∧ (st.items.find? (fun x => x.id = id) = none →
        putItem st id name? desc? = ((404, RespBody.jsonError "Not found"), st)) := by
  constructor
  · intro it hit
    simp [putItem, h1, h2, hit]
  · intro hnone
    simp [putItem, h1, h2, hnone]

/-- C4 witness: an all-empty update of the single stored row, and the
404 answer on a missing id. -/
theorem putItem_nochanges_c4_witness :
    putItem ⟨[⟨"a", "N", "D", none⟩], []⟩ "a" (some "") none
      = ((200, RespBody.jsonMsgItem "No changes requested" ⟨"a", "N", "D", none⟩),
          ⟨[⟨"a", "N", "D", none⟩], []⟩) :=
  (putItem_nochanges_c4 ⟨[⟨"a", "N", "D", none⟩], []⟩ "a" (some "") none
      (by decide) (by decide)).1 ⟨"a", "N", "D", none⟩ (by decide)

/-! ### Helper lemmas for deletion -/

theorem lookup_filter_ne {β : Type} (fn : String) (l : List (String × β)) :
    (l.filter (fun p => p.1 ≠ fn)).lookup fn = none := by
  induction l with
  | nil => rfl
  | cons a t ih =>
    by_cases h : a.1 = fn
    · simp only [List.filter_cons]
      rw [if_neg (by simp [h])]
      exact ih
    · simp only [List.filter_cons]
      rw [if_pos (by simp [h])]
      rcases a with ⟨k, b⟩
      simp only at h
      have hbeq : (fn == k) = false := by
        simp [Ne.symm h]
      simp only [List.lookup, hbeq]
      exact ih

theorem deleteItem_items_eq (st : ServerState) (id : String) (u : Bool) (it : Item)
    (h : st.items.find? (fun x => x.id = id) = some it) :
    (deleteItem st id u).2.items = st.items.filter (fun x => x.id ≠ id) := by
  simp only [deleteItem, h]
  cases it.photo with
  | none => rfl
  | some fn =>
    simp only
    split <;> rfl

/-! ### C5: deletion removes the row and its photo file -/

/-- C5: deleting an existing item answers 200; afterwards
`GET /inventory/{id}` answers 404, `GET /inventory/{id}/photo` answers
404, and when a photo filename was attached the backing cache file is no
longer found (here for a successful `fs.unlink`, `unlinkOk = true`);
deleting a nonexistent id answers 404 and changes nothing. -/
theorem deleteItem_c5 (st : ServerState) (id : String) :
    (∀ it, st.items.find? (fun x => x.id = id) = some it →
      (deleteItem st id true).1 = (200, RespBody.jsonMsg "Deleted")
      ∧ getItem (deleteItem st id true).2 id = (404, RespBody.jsonError "Not found")
      ∧ getPhoto (deleteItem st id true).2 id = (404, RespBody.jsonError "Photo not found")
      ∧ (∀ fn, it.photo = some fn →
          List.lookup fn (deleteItem st id true).2.files = none))
    ∧ (st.items.find? (fun x => x.id = id) = none →
      deleteItem st id true = ((404, RespBody.jsonError "Not found"), st)) := by
  constructor
  · intro it h
    have hitems := deleteItem_items_eq st id true it h
    have hgone : ((deleteItem st id true).2.items.find? (fun x => x.id = id)) = none := by
      rw [hitems]
      refine find?_filter_none ?_ st.items
      intro x hx
      simp only [decide_eq_true_eq] at hx
      simp [hx]
    refine ⟨?_, ?_, ?_, ?_⟩
    · simp only [deleteItem, h]
    · simp [getItem, hgone]
    · simp [getPhoto, hgone]
    · intro fn hfn
      simp only [deleteItem, h, hfn]
      cases hl : (List.lookup fn st.files).isSome with
      | false =>
        simp only [hl, Bool.false_and, Bool.and_true, if_neg]
        rw [if_neg (by simp)]
        exact Option.not_isSome_iff_eq_none.mp (by simp [hl])
      | true =>
        rw [if_pos (by simp [hl])]
        exact lookup_filter_ne fn st.files
  · intro h
    simp [deleteItem, h]

/-- C5 witness: deleting the single item, which owns cache file `f1`. -/
theorem deleteItem_c5_witness :
    (deleteItem ⟨[⟨"a", "N", "D", some "f1"⟩], [("f1", [7, 8])]⟩ "a" true).1
        = (200, RespBody.jsonMsg "Deleted")
    ∧ getItem (deleteItem ⟨[⟨"a", "N", "D", some "f1"⟩], [("f1", [7, 8])]⟩ "a" true).2 "a"
        = (404, RespBody.jsonError "Not found")
    ∧ getPhoto (deleteItem ⟨[⟨"a", "N", "D", some "f1"⟩], [("f1", [7, 8])]⟩ "a" true).2 "a"
        = (404, RespBody.jsonError "Photo not found")
    ∧ (∀ fn, (some "f1" : Option String) = some fn →
        List.lookup fn
          (deleteItem ⟨[⟨"a", "N", "D", some "f1"⟩], [("f1", [7, 8])]⟩ "a" true).2.files
          = none) :=
  (deleteItem_c5 ⟨[⟨"a", "N", "D", some "f1"⟩], [("f1", [7, 8])]⟩ "a").1
    ⟨"a", "N", "D", some "f1"⟩ (by decide)

/-! ### C9: a failed photo unlink is swallowed -/

/-- C9: when the asynchronous `fs.unlink` of the photo file fails during
`DELETE /inventory/{id}` of an existing item, the response is still 200
with the success message, and the cache directory is left as it was;
the failure is only logged, never surfaced. -/
theorem deleteItem_c9 (st : ServerState) (id : String) (it : Item)
    (h : st.items.find? (fun x => x.id = id) = some it) :
    (deleteItem st id false).1 = (200, RespBody.jsonMsg "Deleted")
    ∧ (deleteItem st id false).2.files = st.files := by
  constructor
  · simp only [deleteItem, h]
  · simp only [deleteItem, h]
    cases it.photo with
    | none => rfl
    | some fn =>
      simp only [Bool.and_false]
      rw [if_neg (by simp)]

/-- C9 witness: the unlink of `f1` fails, the deletion still succeeds
and the file stays in the cache. -/
theorem deleteItem_c9_witness :
    (deleteItem ⟨[⟨"a", "N", "D", some "f1"⟩], [("f1", [7, 8])]⟩ "a" false).1
        = (200, RespBody.jsonMsg "Deleted")
    ∧ (deleteItem ⟨[⟨"a", "N", "D", some "f1"⟩], [("f1", [7, 8])]⟩ "a" false).2.files
        = [("f1", [7, 8])] :=
  deleteItem_c9 ⟨[⟨"a", "N", "D", some "f1"⟩], [("f1", [7, 8])]⟩ "a"
    ⟨"a", "N", "D", some "f1"⟩ (by decide)

/-! ### C7: photo upload / retrieval round-trip -/

/-- C7: for an existing item, uploading photo bytes `b` via
`PUT /inventory/{id}/photo` answers 200, and a subsequent
`GET /inventory/{id}/photo` answers 200 with exactly the bytes `b`. -/
theorem photo_roundtrip_c7 (st : ServerState) (id fn : String) (b : List Nat)
    (it : Item) (h : st.items.find? (fun x => x.id = id) = some it) :
    (putPhoto st id (some (fn, b))).1 = (200, RespBody.jsonMsg "Photo updated")
    ∧ getPhoto (putPhoto st id (some (fn, b))).2 id
        = (200, RespBody.bytes "image/jpeg" b) := by
  have hf : ∀ x : Item,
      (fun x : Item => decide (x.id = id))
          ((fun y : Item => if y.id = id then { y with photo := some fn } else y) x)
        = (fun x : Item => decide (x.id = id)) x := by
    intro x
    by_cases hx : x.id = id <;> simp [hx]
  have hfind2 : ((st.items.map
        (fun y : Item => if y.id = id then { y with photo := some fn } else y)).find?
          (fun x => x.id = id))
      = some (if it.id = id then { it with photo := some fn } else it) := by
    rw [find?_map_pres hf st.items, h]
    rfl
  have hit_id : it.id = id := by
    have := List.find?_some h
    simpa using this
  constructor
  · simp only [putPhoto, h]
  · simp only [putPhoto, h, getPhoto, hfind2]
    rw [if_pos hit_id]
    simp [List.lookup]

/-- C7 witness: uploading bytes `[3, 4]` as file `f2` for the single
item and reading them back. -/
theorem photo_roundtrip_c7_witness :
    (putPhoto ⟨[⟨"a", "N", "D", none⟩], []⟩ "a" (some ("f2", [3, 4]))).1
        = (200, RespBody.jsonMsg "Photo updated")
    ∧ getPhoto (putPhoto ⟨[⟨"a", "N", "D", none⟩], []⟩ "a" (some ("f2", [3, 4]))).2 "a"
        = (200, RespBody.bytes "image/jpeg" [3, 4]) :=
  photo_roundtrip_c7 ⟨[⟨"a", "N", "D", none⟩], []⟩ "a" "f2" [3, 4]
    ⟨"a", "N", "D", none⟩ (by decide)

/-! ### C8: photo retrieval statuses -/

/-- C8: `GET /inventory/{id}/photo` answers 404 exactly when the item is
absent, its photo field is null, or the referenced file is missing from
the cache; otherwise it answers 200 with the file bytes under the
declared content type `image/jpeg`, whatever the bytes contain. -/
theorem getPhoto_c8 (st : ServerState) (id : String) :
    ((getPhoto st id).1 = 404 ↔
      st.items.find? (fun x => x.id = id) = none
      ∨ (∃ it, st.items.find? (fun x => x.id = id) = some it ∧ it.photo = none)
      ∨ (∃ it fn, st.items.find? (fun x => x.id = id) = some it ∧ it.photo = some fn
          ∧ List.lookup fn st.files = none))
    ∧ (∀ it fn b, st.items.find? (fun x => x.id = id) = some it → it.photo = some fn →
        List.lookup fn st.files = some b →
        getPhoto st id = (200, RespBody.bytes "image/jpeg" b)) := by
  constructor
  · cases hfind : st.items.find? (fun x => x.id = id) with
    | none => simp [getPhoto, hfind]
    | some it =>
      cases hp : it.photo with
      | none => simp [getPhoto, hfind, hp]
      | some fn =>
        cases hl : List.lookup fn st.files with
        | none =>
          constructor
          · intro _
            exact Or.inr (Or.inr ⟨it, fn, rfl, hp, hl⟩)
          · intro _
            simp [getPhoto, hfind, hp, hl]
        | some b =>
          have hg : getPhoto st id = (200, RespBody.bytes "image/jpeg" b) := by
            simp [getPhoto, hfind, hp, hl]
          constructor
          · intro habs
            rw [hg] at habs
            simp at habs
          · rintro (h1 | ⟨it', h1, h2⟩ | ⟨it', fn', h1, h2, h3⟩)
            · exact absurd h1 (by simp)
            · injection h1 with he
              subst he
              rw [hp] at h2
              exact absurd h2 (by simp)
            · injection h1 with he
              subst he
              rw [hp] at h2
              injection h2 with he2
              subst he2
              rw [hl] at h3
              exact absurd h3 (by simp)
  · intro it fn b h1 h2 h3
    simp [getPhoto, h1, h2, h3]

/-- C8 witness: the single item references cache file `f1` holding
bytes `[9]`; retrieval answers 200 `image/jpeg` with those bytes, and a
dangling filename `f9` answers 404. -/
theorem getPhoto_c8_witness :
    ((getPhoto ⟨[⟨"a", "N", "D", some "f1"⟩], [("f1", [9])]⟩ "a").1 = 404 ↔
      (ServerState.mk [⟨"a", "N", "D", some "f1"⟩] [("f1", [9])]).items.find?
          (fun x => x.id = "a") = none
      ∨ (∃ it, (ServerState.mk [⟨"a", "N", "D", some "f1"⟩] [("f1", [9])]).items.find?
          (fun x => x.id = "a") = some it ∧ it.photo = none)
      ∨ (∃ it fn, (ServerState.mk [⟨"a", "N", "D", some "f1"⟩] [("f1", [9])]).items.find?
          (fun x => x.id = "a") = some it ∧ it.photo = some fn
          ∧ List.lookup fn [("f1", [9])] = none))
    ∧ (∀ it fn b,
        (ServerState.mk [⟨"a", "N", "D", some "f1"⟩] [("f1", [9])]).items.find?
          (fun x => x.id = "a") = some it →
        it.photo = some fn → List.lookup fn [("f1", [9])] = some b →
        getPhoto ⟨[⟨"a", "N", "D", some "f1"⟩], [("f1", [9])]⟩ "a"
          = (200, RespBody.bytes "image/jpeg" b)) :=
  getPhoto_c8 ⟨[⟨"a", "N", "D", some "f1"⟩], [("f1", [9])]⟩ "a"

/-! ### C6: the `/search` endpoint -/

/-- C6 counterexample: `includePhoto = '1'` is a truthy JavaScript value
but the handler only tests `=== 'true' || === true`, so the response for
an existing item carries no `Photo:` line; "supplied and truthy"
overstates the check. -/
theorem search_c6_counterexample :
    jsTruthy (some (FormVal.str "1")) = true
    ∧ search ⟨[⟨"a", "N", "D", none⟩], []⟩ (some "a") (some (FormVal.str "1"))
        = (200, RespBody.text "Name: N\nDescription: D")
    ∧ hasLine "Name: N\nDescription: D" "Photo: /inventory/a/photo" = false := by
  refine ⟨by decide, ?_, by decide⟩
  rfl

/-- C6 (amended): searching with no id (or an empty one) answers 400;
searching a nonexistent id answers 404 plain text `"Not Found"`;
searching an existing id answers 200 plain text carrying the item's name
and description, with the `Photo: /inventory/{id}/photo` line exactly
when `includePhoto` equals the string `'true'` or the boolean `true`
(not for other truthy values). -/
theorem search_c6 (st : ServerState) (id : String) (v : Option FormVal) :
    search st none v = (400, RespBody.text "ID parameter is required")
    ∧ search st (some "") v = (400, RespBody.text "ID parameter is required")
    ∧ (id ≠ "" → st.items.find? (fun x => x.id = id) = none →
        search st (some id) v = (404, RespBody.text "Not Found"))
    ∧ (∀ it, id ≠ "" → st.items.find? (fun x => x.id = id) = some it →
        search st (some id) (some (FormVal.str "true"))
          = (200, RespBody.text ("Name: " ++ it.name ++ "\nDescription: "
              ++ it.description ++ "\nPhoto: /inventory/" ++ id ++ "/photo"))
        ∧ search st (some id) (some (FormVal.boolean true))
          = (200, RespBody.text ("Name: " ++ it.name ++ "\nDescription: "
              ++ it.description ++ "\nPhoto: /inventory/" ++ id ++ "/photo"))
        ∧ search st (some id) none
          = (200, RespBody.text ("Name: " ++ it.name ++ "\nDescription: "
              ++ it.description))) := by
  refine ⟨rfl, rfl, ?_, ?_⟩
  · intro hid hfind
    simp [search, falsyStr, hid, hfind]
  · intro it hid hfind
    refine ⟨?_, ?_, ?_⟩ <;>
      simp [search, falsyStr, hid, hfind, includePhotoSet]

/-- C6 witness: the three 200 answers on a concrete one-item store. -/
theorem search_c6_witness :
    search ⟨[⟨"a", "N", "D", none⟩], []⟩ (some "a") (some (FormVal.str "true"))
      = (200, RespBody.text ("Name: " ++ "N" ++ "\nDescription: " ++ "D"
          ++ "\nPhoto: /inventory/" ++ "a" ++ "/photo"))
    ∧ search ⟨[⟨"a", "N", "D", none⟩], []⟩ (some "a") (some (FormVal.boolean true))
      = (200, RespBody.text ("Name: " ++ "N" ++ "\nDescription: " ++ "D"
          ++ "\nPhoto: /inventory/" ++ "a" ++ "/photo"))
    ∧ search ⟨[⟨"a", "N", "D", none⟩], []⟩ (some "a") none
      = (200, RespBody.text ("Name: " ++ "N" ++ "\nDescription: " ++ "D")) :=
  (search_c6 ⟨[⟨"a", "N", "D", none⟩], []⟩ "a" none).2.2.2
    ⟨"a", "N", "D", none⟩ (by decide) (by decide)

/-! ### C10: exact photo-line condition, dangling photo reference -/

/-- C10: for an existing item the `/search` answer carries the
`Photo: /inventory/{id}/photo` line exactly when `includePhoto` equals
the string `'true'` or the boolean `true` — `'1'` and `'yes'` do not
qualify although `'1'` is truthy — and the line is appended even when
the item's photo field is null, in which case the referenced URL
answers 404. -/
theorem search_c10 (st : ServerState) (id : String) (it : Item) (v : Option FormVal)
    (hid : id ≠ "")
    (h : st.items.find? (fun x => x.id = id) = some it) :
    search st (some id) v
      = (200, RespBody.text (if includePhotoSet v
          then "Name: " ++ it.name ++ "\nDescription: " ++ it.description
            ++ "\nPhoto: /inventory/" ++ id ++ "/photo"
          else "Name: " ++ it.name ++ "\nDescription: " ++ it.description))
    ∧ (includePhotoSet v = true ↔
        (v = some (FormVal.str "true") ∨ v = some (FormVal.boolean true)))
    ∧ includePhotoSet (some (FormVal.str "1")) = false
    ∧ includePhotoSet (some (FormVal.str "yes")) = false
    ∧ jsTruthy (some (FormVal.str "1")) = true
    ∧ (it.photo = none → getPhoto st id = (404, RespBody.jsonError "Photo not found")) := by
  refine ⟨?_, ?_, by decide, by decide, by decide, ?_⟩
  · by_cases hv : includePhotoSet v = true
    · simp [search, falsyStr, hid, h, hv]
    · have hv2 : includePhotoSet v = false := by
        cases hvv : includePhotoSet v with
        | false => rfl
        | true => exact absurd hvv hv
      simp [search, falsyStr, hid, h, hv2]
  · simp [includePhotoSet]
  · intro hp
    simp [getPhoto, h, hp]

/-- C10 witness: the item has no photo; `includePhoto = 'true'` makes
the dangling photo line appear, and the referenced URL answers 404. -/
theorem search_c10_witness :
    search ⟨[⟨"a", "N", "D", none⟩], []⟩ (some "a") (some (FormVal.str "true"))
      = (200, RespBody.text (if includePhotoSet (some (FormVal.str "true"))
          then "Name: " ++ "N" ++ "\nDescription: " ++ "D"
            ++ "\nPhoto: /inventory/" ++ "a" ++ "/photo"
          else "Name: " ++ "N" ++ "\nDescription: " ++ "D"))
    ∧ (includePhotoSet (some (FormVal.str "true")) = true ↔
        (some (FormVal.str "true") = some (FormVal.str "true")
          ∨ some (FormVal.str "true") = some (FormVal.boolean true)))
    ∧ includePhotoSet (some (FormVal.str "1")) = false
    ∧ includePhotoSet (some (FormVal.str "yes")) = false
    ∧ jsTruthy (some (FormVal.str "1")) = true
    ∧ ((none : Option String) = none →
        getPhoto ⟨[⟨"a", "N", "D", none⟩], []⟩ "a"
          = (404, RespBody.jsonError "Photo not found")) :=
  search_c10 ⟨[⟨"a", "N", "D", none⟩], []⟩ "a" ⟨"a", "N", "D", none⟩
    (some (FormVal.str "true")) (by decide) (by decide)
